import Mathlib

/-!
Shallow embedding of the Copilot SDK C++ client (src/cpp/src/client.cpp) in Lean 4.

The embedding models the inbound dispatch handlers, the connection state
machine, stop/forceStop cleanup, the lifecycle-subscriber broadcast and the
models-list cache of `CopilotClient`.  C++ exceptions are modelled by the
`Except Exc` monad, where `Exc.stdExc w` stands for a thrown object derived
from `std::exception` whose `what()` is `w`, and `Exc.otherExc` stands for any
other thrown value (the distinction matters: the source catches
`const std::exception&` in some places and `...` in others).

Types declared in headers that are not under src/ (`CopilotSession`,
`ToolResultObject`, `PingResponse`, the nlohmann JSON values) are modelled
from the spec and from their uses in client.cpp; each such definition says so
in its doc comment.
-/

namespace Copilot

/-- Minimal JSON value model standing in for `nlohmann::json`. -/
inductive Json where
  | null
  | bool (b : Bool)
  | num (n : Int)
  | str (s : String)
  | arr (elems : List Json)
  | obj (fields : List (String × Json))

/-- Field lookup on a JSON object; `none` on non-objects or missing keys. -/
def Json.lookupField : Json → String → Option Json
  | .obj fields, key => fields.lookup key
  | _, _ => none

/-- Models `j.contains(key)` of nlohmann::json. -/
def Json.containsKey (j : Json) (key : String) : Bool :=
  (j.lookupField key).isSome

/-- Models `j.value(key, default)` for string-typed fields: the stored string
when the key is present with a string value, the default otherwise.
(Ill-typed present values, which nlohmann would reject, are not modelled;
no claim depends on them.) -/
def Json.valueStr (j : Json) (key dflt : String) : String :=
  match j.lookupField key with
  | some (.str s) => s
  | _ => dflt

/-- Models `j.contains(key) ? j[key] : fallback`. -/
def Json.getD (j : Json) (key : String) (fallback : Json) : Json :=
  match j.lookupField key with
  | some v => v
  | none => fallback

/-- Models `j.is_null()`. -/
def Json.isNull : Json → Bool
  | .null => true
  | _ => false

/-- A thrown C++ value: either an object derived from `std::exception`
(carrying its `what()` message) or any other thrown value. -/
inductive Exc where
  | stdExc (what : String)
  | otherExc
deriving DecidableEq

/-- Models the `JsonRpcError` struct (code and message) used by the
request-handler return type `std::pair<json, std::optional<JsonRpcError>>`. -/
structure JsonRpcError where
  code : Int
  message : String
deriving DecidableEq

/-- The value a dispatch handler hands back to the JSON-RPC layer:
a result payload plus an optional protocol-level error. -/
abbrev HandlerResponse := Json × Option JsonRpcError

/-- Modelled from the spec and from the uses in client.cpp: the fields of
`ToolResultObject` (declared in types.h, not under src/) that client.cpp
reads or writes.  Fields never touched by client.cpp
(binary payloads, session log) are omitted. -/
structure ToolResultObject where
  textResultForLlm : String
  resultType : String
  error : Option String
  toolTelemetry : Json

/-- Modelled from the spec: the nlohmann serialization of `ToolResultObject`
(declared outside src/); one key per modelled field, the optional error
serialized as null when absent. -/
def ToolResultObject.toJson (r : ToolResultObject) : Json :=
  Json.obj [("textResultForLlm", .str r.textResultForLlm),
            ("resultType", .str r.resultType),
            ("error", match r.error with | some e => .str e | none => .null),
            ("toolTelemetry", r.toolTelemetry)]

/-- `ToolInvocation` context passed to a tool handler (client.cpp line 718). -/
structure ToolInvocation where
  sessionId : String
  toolCallId : String
  toolName : String
  arguments : Json

/-- A registered tool handler: arguments and invocation context to a
`ToolResultObject`, possibly raising. -/
abbrev ToolHandler := Json → ToolInvocation → Except Exc ToolResultObject

/-- Modelled from the spec: result of a permission callback; the example
driver constructs it from a single kind string. -/
structure PermissionRequestResult where
  kind : String
deriving DecidableEq

/-- Modelled from the spec: serialization of `PermissionRequestResult`. -/
def PermissionRequestResult.toJson (r : PermissionRequestResult) : Json :=
  Json.obj [("kind", .str r.kind)]

/-- `UserInputRequest` as assembled by `handleUserInputRequest`
(client.cpp lines 780-783). -/
structure UserInputRequest where
  question : String
  choices : Option (List String)
  allowFreeform : Option Bool

/-- Modelled from the spec: a session object (class declared in session.h,
not under src/).  It carries the per-session handler table the router needs:
tool name to tool handler, the optional permission, user-input and hooks
callbacks, and an abstract outcome for `destroy()` (which issues an RPC to
the server, an external effect). -/
structure CopilotSession where
  sessionId : String
  workspacePath : String
  tools : List (String × ToolHandler)
  onPermissionRequest : Option (Json → String → Except Exc PermissionRequestResult)
  onUserInputRequest : Option (UserInputRequest → Except Exc Json)
  onHooks : Option (String → Json → Except Exc Json)
  destroyOutcome : Except Exc Unit

/-- Modelled from the spec: `session->getToolHandler(name)` looks the named
tool up in the session's handler table. -/
def CopilotSession.getToolHandler (s : CopilotSession) (name : String) :
    Option ToolHandler :=
  s.tools.lookup name

/-- Modelled from the spec: the session-level permission routing.  A missing
callback raises (client.cpp's `catch (...)` then substitutes the default
denial, matching the spec's "if the callback is missing or itself fails"). -/
def CopilotSession.handlePermissionRequest (s : CopilotSession) (req : Json) :
    Except Exc PermissionRequestResult :=
  match s.onPermissionRequest with
  | some f => f req s.sessionId
  | none => .error (.stdExc "No permission handler registered")

/-- Modelled from the spec: the session-level user-input routing; a missing
callback raises. -/
def CopilotSession.handleUserInputRequest (s : CopilotSession)
    (req : UserInputRequest) : Except Exc Json :=
  match s.onUserInputRequest with
  | some f => f req
  | none => .error (.stdExc "No user input handler registered")

/-- Modelled from the spec: the session-level hooks routing; with no hooks
callback the output is empty (null), which the dispatch handler encodes as
"no output field". -/
def CopilotSession.handleHooksInvoke (s : CopilotSession) (hookType : String)
    (input : Json) : Except Exc Json :=
  match s.onHooks with
  | some f => f hookType input
  | none => .ok .null

/-- Modelled from the spec: `session->destroy()` tears the session down on
the server; its outcome is the session's abstract destroy outcome. -/
def CopilotSession.destroy (s : CopilotSession) : Except Exc Unit :=
  s.destroyOutcome

/-- The client's tracked-session table `sessions_` (session id to session). -/
abbrev Sessions := List (String × CopilotSession)

/-- Lookup in `sessions_` (the `sessions_.find(sid)` pattern of client.cpp). -/
def findSession (sessions : Sessions) (sid : String) : Option CopilotSession :=
  sessions.lookup sid

/-- `CopilotClient::buildFailedToolResult` (client.cpp lines 837-844). -/
def buildFailedToolResult (error : String) : ToolResultObject :=
  { textResultForLlm :=
      "Invoking this tool produced an error. Detailed information is not available."
    resultType := "failure"
    error := some error
    toolTelemetry := Json.obj [] }

/-- `CopilotClient::buildUnsupportedToolResult` (client.cpp lines 846-853). -/
def buildUnsupportedToolResult (toolName : String) : ToolResultObject :=
  { textResultForLlm :=
      "Tool \x27" ++ toolName ++ "\x27 is not supported by this client instance."
    resultType := "failure"
    error := some ("tool \x27" ++ toolName ++ "\x27 not supported")
    toolTelemetry := Json.obj [] }

/-- `CopilotClient::executeToolCall` (client.cpp lines 826-835): invoke the
tool handler; `catch (const std::exception&)` wraps the message,
`catch (...)` wraps a fixed text. -/
def executeToolCall (handler : ToolHandler) (invocation : ToolInvocation) :
    ToolResultObject :=
  match handler invocation.arguments invocation with
  | .ok r => r
  | .error (.stdExc w) => buildFailedToolResult w
  | .error .otherExc => buildFailedToolResult "Unknown tool error"

/-- `CopilotClient::handleToolCall` (client.cpp lines 690-725). -/
def handleToolCall (sessions : Sessions) (params : Json) :
    Except Exc HandlerResponse :=
  let sid := params.valueStr "sessionId" ""
  let toolCallId := params.valueStr "toolCallId" ""
  let toolName := params.valueStr "toolName" ""
  if sid = "" ∨ toolCallId = "" ∨ toolName = "" then
    .ok (.null, some ⟨-32602, "Invalid tool call payload"⟩)
  else
    match findSession sessions sid with
    | none => .ok (.null, some ⟨-32602, "Unknown session " ++ sid⟩)
    | some session =>
      match session.getToolHandler toolName with
      | none =>
        .ok (Json.obj [("result", (buildUnsupportedToolResult toolName).toJson)], none)
      | some handler =>
        let invocation : ToolInvocation :=
          ⟨sid, toolCallId, toolName, params.getD "arguments" (Json.obj [])⟩
        .ok (Json.obj [("result", (executeToolCall handler invocation).toJson)], none)

/-- The default denial `PermissionRequestResult` substituted by
`handlePermissionRequest` (client.cpp lines 753-754). -/
def defaultDeniedResult : PermissionRequestResult :=
  ⟨"denied-no-approval-rule-and-could-not-request-from-user"⟩

/-- `CopilotClient::handlePermissionRequest` (client.cpp lines 727-757): the
whole decode-and-route body sits in a `try` whose `catch (...)` answers with
the default denial result. -/
def handlePermissionRequest (sessions : Sessions) (params : Json) :
    Except Exc HandlerResponse :=
  let sid := params.valueStr "sessionId" ""
  if sid = "" ∨ ¬ params.containsKey "permissionRequest" then
    .ok (.null, some ⟨-32602, "Invalid permission request payload"⟩)
  else
    match findSession sessions sid with
    | none => .ok (.null, some ⟨-32602, "Session not found: " ++ sid⟩)
    | some session =>
      match session.handlePermissionRequest (params.getD "permissionRequest" .null) with
      | .ok result => .ok (Json.obj [("result", result.toJson)], none)
      | .error _ => .ok (Json.obj [("result", defaultDeniedResult.toJson)], none)

/-- Decode a `List String` JSON array (the `get<std::vector<std::string>>()`
of client.cpp line 782); ill-typed arrays are not modelled. -/
def decodeStrList : Json → Option (List String)
  | .arr elems => elems.mapM fun e =>
      match e with
      | .str s => some s
      | _ => none
  | _ => none

/-- The `UserInputRequest` assembled by `handleUserInputRequest`
(client.cpp lines 780-783). -/
def decodeUserInputRequest (params : Json) : UserInputRequest :=
  { question := params.valueStr "question" ""
    choices :=
      match params.lookupField "choices" with
      | some v => decodeStrList v
      | none => none
    allowFreeform :=
      match params.lookupField "allowFreeform" with
      | some (.bool b) => some b
      | _ => none }

/-- `CopilotClient::handleUserInputRequest` (client.cpp lines 759-790): the
`try` around the callback has only `catch (const std::exception& e)`, which
becomes the protocol error `-32603` carrying `e.what()`; a thrown value not
derived from `std::exception` is not caught and propagates out of the
dispatch handler. -/
def handleUserInputRequest (sessions : Sessions) (params : Json) :
    Except Exc HandlerResponse :=
  let sid := params.valueStr "sessionId" ""
  let question := params.valueStr "question" ""
  if sid = "" ∨ question = "" then
    .ok (.null, some ⟨-32602, "Invalid user input request payload"⟩)
  else
    match findSession sessions sid with
    | none => .ok (.null, some ⟨-32602, "Session not found: " ++ sid⟩)
    | some session =>
      match session.handleUserInputRequest (decodeUserInputRequest params) with
      | .ok response => .ok (response, none)
      | .error (.stdExc w) => .ok (.null, some ⟨-32603, w⟩)
      | .error .otherExc => .error .otherExc

/-- `CopilotClient::handleHooksInvoke` (client.cpp lines 792-820): the call
into `session->handleHooksInvoke` has no surrounding try/catch, so anything
the hooks callback throws propagates out of the dispatch handler; an empty
(null) output is encoded as an object with no `output` field. -/
def handleHooksInvoke (sessions : Sessions) (params : Json) :
    Except Exc HandlerResponse :=
  let sid := params.valueStr "sessionId" ""
  let hookType := params.valueStr "hookType" ""
  if sid = "" ∨ hookType = "" then
    .ok (.null, some ⟨-32602, "Invalid hooks invoke payload"⟩)
  else
    match findSession sessions sid with
    | none => .ok (.null, some ⟨-32602, "Session not found: " ++ sid⟩)
    | some session =>
      let input := params.getD "input" (Json.obj [])
      match session.handleHooksInvoke hookType input with
      | .error e => .error e
      | .ok output =>
        .ok (if output.isNull then Json.obj [] else Json.obj [("output", output)], none)

/-- A `session.lifecycle` event (typed decode of client.cpp line 673). -/
structure SessionLifecycleEvent where
  type : String
  sessionId : String
deriving DecidableEq

/-- One entry of `lifecycleHandlers_`: the registration id, the event-type
filter (empty string means unfiltered) and the callback. -/
structure LifecycleEntry where
  id : Nat
  eventType : String
  fn : SessionLifecycleEvent → Except Exc Unit

/-- The typed decode `params.get<SessionLifecycleEvent>()`
(client.cpp line 673), modelled on the two fields the code uses. -/
def decodeLifecycleEvent (params : Json) : SessionLifecycleEvent :=
  ⟨params.valueStr "type" "", params.valueStr "sessionId" ""⟩

/-- `CopilotClient::handleSessionLifecycle` (client.cpp lines 670-688):
guard on the `type` and `sessionId` fields, snapshot the subscriber list,
and invoke every entry whose filter is empty or matches the event type,
swallowing anything a callback throws (`catch (...) {}`).  The returned
list records, in order, each invoked entry id with its callback's outcome. -/
def handleSessionLifecycle (handlers : List LifecycleEntry) (params : Json) :
    List (Nat × Except Exc Unit) :=
  if params.containsKey "type" && params.containsKey "sessionId" then
    let event := decodeLifecycleEvent params
    (handlers.filter fun e => e.eventType == "" || e.eventType == event.type).map
      fun e => (e.id, e.fn event)
  else []

/-- `CopilotClient::onLifecycle(handler)` (client.cpp lines 366-377):
register an unfiltered subscriber; returns the new list, the next id
counter and the id captured by the unsubscribe closure. -/
def onLifecycle (handlers : List LifecycleEntry) (nextId : Nat)
    (handler : SessionLifecycleEvent → Except Exc Unit) :
    List LifecycleEntry × Nat × Nat :=
  (handlers ++ [⟨nextId, "", handler⟩], nextId + 1, nextId)

/-- `CopilotClient::onLifecycle(eventType, handler)`
(client.cpp lines 379-391): register a filtered subscriber. -/
def onLifecycleFiltered (handlers : List LifecycleEntry) (nextId : Nat)
    (eventType : String) (handler : SessionLifecycleEvent → Except Exc Unit) :
    List LifecycleEntry × Nat × Nat :=
  (handlers ++ [⟨nextId, eventType, handler⟩], nextId + 1, nextId)

/-- The erase-remove unsubscribe closure returned by `onLifecycle`
(client.cpp lines 370-376). -/
def removeLifecycle (handlers : List LifecycleEntry) (id : Nat) :
    List LifecycleEntry :=
  handlers.filter fun e => e.id != id

/-- `ConnectionState` (section 3 of the spec; client.h enum). -/
inductive ConnectionState where
  | Disconnected
  | Connecting
  | Connected
  | Error
deriving DecidableEq

/-- An externally visible side effect of stop/forceStop (POSIX branch of
client.cpp; the `_WIN32` branch performs the analogous handle operations). -/
inductive ProcAction where
  | sigterm (pid : Int)
  | sigkill (pid : Int)
  | waitpidBlocking (pid : Int)
  | waitpidNohang (pid : Int)
  | closeFd (fd : Int)
  | rpcStop
deriving DecidableEq

/-- The `CopilotClient` member state that the modelled operations touch:
connection state, the external-endpoint flag, the tracked-session table,
whether `rpcClient_` is non-null, the models cache, the spawned process id
(`-1` when none) and the two pipe file descriptors (`-1` when closed). -/
structure ClientState where
  state : ConnectionState
  isExternalServer : Bool
  sessions : Sessions
  rpcClient : Bool
  modelsCache : Option (List Json)
  processPid : Int
  stdinWriteFd : Int
  stdoutReadFd : Int

/-- The session-destroy loop of `CopilotClient::stop` (client.cpp lines
98-104): `catch (const std::exception& e)` collects a message; a thrown
value not derived from `std::exception` is not caught and aborts the loop
(and `stop` itself) by propagating. -/
def destroySessions : Sessions → Except Exc (List String)
  | [] => .ok []
  | (_, s) :: rest =>
    match s.destroy with
    | .ok _ => destroySessions rest
    | .error (.stdExc w) =>
      match destroySessions rest with
      | .ok errs => .ok (("Failed to destroy session " ++ s.sessionId ++ ": " ++ w) :: errs)
      | .error e => .error e
    | .error .otherExc => .error .otherExc

/-- The graceful process-termination block of `stop` (client.cpp lines
123-143, POSIX): guarded by `!isExternalServer_`; SIGTERM plus a blocking
`waitpid` when a process was spawned, then close the two pipe ends. -/
def gracefulKillActions (c : ClientState) : List ProcAction :=
  if c.isExternalServer then []
  else
    (if c.processPid > 0 then
      [ProcAction.sigterm c.processPid, ProcAction.waitpidBlocking c.processPid]
     else [])
    ++ (if c.stdinWriteFd ≥ 0 then [ProcAction.closeFd c.stdinWriteFd] else [])
    ++ (if c.stdoutReadFd ≥ 0 then [ProcAction.closeFd c.stdoutReadFd] else [])

/-- The forced process-termination block of `forceStop` (client.cpp lines
168-188, POSIX): SIGKILL plus a non-blocking `waitpid(WNOHANG)`. -/
def forcedKillActions (c : ClientState) : List ProcAction :=
  if c.isExternalServer then []
  else
    (if c.processPid > 0 then
      [ProcAction.sigkill c.processPid, ProcAction.waitpidNohang c.processPid]
     else [])
    ++ (if c.stdinWriteFd ≥ 0 then [ProcAction.closeFd c.stdinWriteFd] else [])
    ++ (if c.stdoutReadFd ≥ 0 then [ProcAction.closeFd c.stdoutReadFd] else [])

/-- The member-state update shared by the termination blocks: spawned pid
and owned fds are reset to `-1` exactly when the corresponding branch ran. -/
def afterKill (c : ClientState) : ClientState :=
  if c.isExternalServer then c
  else
    { c with
      processPid := if c.processPid > 0 then -1 else c.processPid
      stdinWriteFd := if c.stdinWriteFd ≥ 0 then -1 else c.stdinWriteFd
      stdoutReadFd := if c.stdoutReadFd ≥ 0 then -1 else c.stdoutReadFd }

/-- `CopilotClient::stop` (client.cpp lines 86-147): destroy every tracked
session collecting `std::exception` failures; clear the session table; stop
and drop the RPC client; clear the models cache; gracefully terminate the
spawned process (never an external endpoint); state becomes Disconnected.
Returns the collected error list, the new state and the performed actions.
A non-`std::exception` destroy failure escapes before any cleanup runs. -/
def CopilotClient.stop (c : ClientState) :
    Except Exc (List String × ClientState × List ProcAction) :=
  match destroySessions c.sessions with
  | .error e => .error e
  | .ok errors =>
    let actions := (if c.rpcClient then [ProcAction.rpcStop] else [])
      ++ gracefulKillActions c
    let c2 := afterKill { c with
      sessions := []
      rpcClient := false
      modelsCache := none }
    .ok (errors, { c2 with state := .Disconnected }, actions)

/-- `CopilotClient::forceStop` (client.cpp lines 149-191): clear sessions
without destroying them, stop and drop the RPC client, clear the models
cache, SIGKILL the spawned process (never an external endpoint); state
becomes Disconnected.  Nothing in the body can throw. -/
def CopilotClient.forceStop (c : ClientState) : ClientState × List ProcAction :=
  let actions := (if c.rpcClient then [ProcAction.rpcStop] else [])
    ++ forcedKillActions c
  let c2 := afterKill { c with
    sessions := []
    rpcClient := false
    modelsCache := none }
  ({ c2 with state := .Disconnected }, actions)

/-- Modelled from the spec: the `PingResponse` DTO (types.h, not under
src/) on the two fields client.cpp reads. -/
structure PingResponse where
  message : String
  protocolVersion : Option Nat

/-- The environment a `start()` run interacts with: the outcome of spawning
the CLI server (ok carries the child pid), of opening the transport
(`connectToServer` including `rpcClient_->start()`), and of the handshake
`ping` request. -/
structure StartEnv where
  spawnOutcome : Except Exc Int
  connectOutcome : Except Exc Unit
  pingOutcome : Except Exc PingResponse

/-- `CopilotClient::verifyProtocolVersion` (client.cpp lines 397-414):
issue `ping()`; throw a `std::runtime_error` when the response carries no
protocol version or one different from the compiled-in expected version.
The compiled-in constant `SDK_PROTOCOL_VERSION` (sdk_protocol_version.h,
not under src/) is passed explicitly as `expected`. -/
def verifyProtocolVersion (expected : Nat)
    (pingOutcome : Except Exc PingResponse) : Except Exc Unit :=
  match pingOutcome with
  | .error e => .error e
  | .ok response =>
    match response.protocolVersion with
    | none =>
      .error (.stdExc ("SDK protocol version mismatch: SDK expects version "
        ++ toString expected
        ++ ", but server does not report a protocol version. Please update your server to ensure compatibility."))
    | some v =>
      if v ≠ expected then
        .error (.stdExc ("SDK protocol version mismatch: SDK expects version "
          ++ toString expected
          ++ ", but server reports version " ++ toString v
          ++ ". Please update your SDK or server to ensure compatibility."))
      else .ok ()

/-- `CopilotClient::start` (client.cpp lines 68-84): no-op when already
Connected; otherwise enter Connecting, spawn the server unless it is an
externally supplied endpoint, open the transport, verify the protocol
version; any failure sets state to Error and rethrows (the second
component carries the escaped exception); success sets Connected. -/
def CopilotClient.start (expected : Nat) (c : ClientState) (env : StartEnv) :
    ClientState × Option Exc :=
  if c.state = .Connected then (c, none)
  else
    let c1 := { c with state := ConnectionState.Connecting }
    match (if c1.isExternalServer then Except.ok c1
           else Except.map (fun pid => { c1 with processPid := pid }) env.spawnOutcome) with
    | .error e => ({ c1 with state := .Error }, some e)
    | .ok c2 =>
      match env.connectOutcome with
      | .error e => ({ c2 with state := .Error }, some e)
      | .ok _ =>
        let c3 := { c2 with rpcClient := true }
        match verifyProtocolVersion expected env.pingOutcome with
        | .error e => ({ c3 with state := .Error }, some e)
        | .ok _ => ({ c3 with state := .Connected }, none)

/-- An outbound JSON-RPC request issued by an operation. -/
inductive RpcCall where
  | request (method : String)
deriving DecidableEq

/-- The `result["models"]` decode of `listModels` (client.cpp lines
305-307); each model entry is kept as its raw JSON value. -/
def decodeModels (result : Json) : List Json :=
  match result.lookupField "models" with
  | some (.arr elems) => elems
  | _ => []

/-- `CopilotClient::listModels` (client.cpp lines 295-310): throw when not
connected; answer from `modelsCache_` when populated (issuing no request);
otherwise issue `models.list`, cache and return the decoded list.
`requestOutcome` is the outcome of the `models.list` request; the returned
call list records the requests actually issued. -/
def CopilotClient.listModels (c : ClientState) (requestOutcome : Except Exc Json) :
    Except Exc (List Json × ClientState × List RpcCall) :=
  if ¬ c.rpcClient then .error (.stdExc "Client not connected")
  else
    match c.modelsCache with
    | some models => .ok (models, c, [])
    | none =>
      match requestOutcome with
      | .error e => .error e
      | .ok result =>
        let models := decodeModels result
        .ok (models, { c with modelsCache := some models }, [RpcCall.request "models.list"])

/-!  Statement-side helpers: executable predicates used to phrase the claims. -/

/-- `pre` is a leading substring of `hay`. -/
def strStartsWith (hay pre : String) : Bool :=
  pre.data.isPrefixOf hay.data

/-- `needle` occurs as a contiguous substring of `hay`. -/
def strContains (hay needle : String) : Bool :=
  hay.data.tails.any needle.data.isPrefixOf

/-- The error detail `executeToolCall` records for a thrown value:
`e.what()` for `std::exception`, a fixed text otherwise. -/
def excErrorDetail : Exc → String
  | .stdExc w => w
  | .otherExc => "Unknown tool error"

/-- True exactly when a dispatch-handler outcome is an escaped
`std::exception`-derived throw. -/
def stdExcEscape : Except Exc HandlerResponse → Bool
  | .error (.stdExc _) => true
  | _ => false

/-- An escaped `start()` outcome that is a protocol-version-mismatch error:
a `std::runtime_error` whose message starts with the mismatch text. -/
def errIsVersionMismatch : Option Exc → Bool
  | some (.stdExc w) => strStartsWith w "SDK protocol version mismatch"
  | _ => false

/-- No tracked session's destroy outcome is a non-`std::exception` throw. -/
def allDestroySafe (sessions : Sessions) : Bool :=
  sessions.all fun p =>
    match p.2.destroyOutcome with
    | .error .otherExc => false
    | _ => true

/-- The error list `stop` is specified to collect: one message per tracked
session whose destroy raises a `std::exception`, in table order. -/
def destroyErrors : Sessions → List String
  | [] => []
  | (_, s) :: rest =>
    match s.destroyOutcome with
    | .error (.stdExc w) =>
      ("Failed to destroy session " ++ s.sessionId ++ ": " ++ w) :: destroyErrors rest
    | _ => destroyErrors rest

/-- The error list returned by `stop`, `none` when `stop` throws. -/
def stopErrorsOpt (c : ClientState) : Option (List String) :=
  match CopilotClient.stop c with
  | .ok (errs, _, _) => some errs
  | .error _ => none

/-- The client state after `stop`, `none` when `stop` throws. -/
def stoppedStateOpt (c : ClientState) : Option ClientState :=
  match CopilotClient.stop c with
  | .ok (_, c2, _) => some c2
  | .error _ => none

/-- The actions `stop` performs; when `stop` throws, the destroy loop
aborted before any cleanup action ran, so the list is empty. -/
def stopActionsList (c : ClientState) : List ProcAction :=
  match CopilotClient.stop c with
  | .ok (_, _, actions) => actions
  | .error _ => []

/-- Process-termination actions: signals and child waits. -/
def isTermSignal : ProcAction → Bool
  | .sigterm _ => true
  | .sigkill _ => true
  | .waitpidBlocking _ => true
  | .waitpidNohang _ => true
  | _ => false

/-- True only for the RPC-client shutdown action. -/
def isRpcStop : ProcAction → Bool
  | .rpcStop => true
  | _ => false

/-- The models cache is empty. -/
def cacheClearedB (c : ClientState) : Bool :=
  c.modelsCache.isNone

/-!  Concrete fixtures used by witnesses and counterexamples. -/

/-- A hooks callback that raises a `std::exception`. -/
def hookStdThrowCallback : String → Json → Except Exc Json :=
  fun _ _ => .error (.stdExc "hook handler failed")

/-- A hooks callback that raises a value not derived from `std::exception`. -/
def hookOtherThrowCallback : String → Json → Except Exc Json :=
  fun _ _ => .error .otherExc

/-- A session whose hooks callback raises a `std::exception`. -/
def hooksBoomSession : CopilotSession :=
  { sessionId := "sh", workspacePath := "/w", tools := []
    onPermissionRequest := none, onUserInputRequest := none
    onHooks := some hookStdThrowCallback, destroyOutcome := .ok () }

/-- A session whose hooks callback raises a non-`std::exception` value. -/
def hooksOtherSession : CopilotSession :=
  { sessionId := "sh2", workspacePath := "/w", tools := []
    onPermissionRequest := none, onUserInputRequest := none
    onHooks := some hookOtherThrowCallback, destroyOutcome := .ok () }

/-- A well-formed `hooks.invoke` payload for session `sh`. -/
def hooksInvokeParams : Json :=
  Json.obj [("sessionId", .str "sh"), ("hookType", .str "preToolUse"),
            ("input", Json.obj [])]

/-- A well-formed `hooks.invoke` payload for session `sh2`. -/
def hooksInvokeParams2 : Json :=
  Json.obj [("sessionId", .str "sh2"), ("hookType", .str "preToolUse")]

/-- A tool handler answering the weather scenario of the spec. -/
def weatherHandler : ToolHandler :=
  fun _ _ => .ok { textResultForLlm := "Weather in Tokyo: 22C sunny"
                   resultType := "success", error := none
                   toolTelemetry := Json.obj [] }

/-- A tool handler that raises a `std::exception`. -/
def weatherFailHandler : ToolHandler :=
  fun _ _ => .error (.stdExc "weather backend offline")

/-- A session with one registered tool `get_weather`. -/
def toolSession : CopilotSession :=
  { sessionId := "st", workspacePath := "/w"
    tools := [("get_weather", weatherHandler)]
    onPermissionRequest := none, onUserInputRequest := none
    onHooks := none, destroyOutcome := .ok () }

/-- A session whose only tool handler raises. -/
def failToolSession : CopilotSession :=
  { sessionId := "sf", workspacePath := "/w"
    tools := [("get_weather", weatherFailHandler)]
    onPermissionRequest := none, onUserInputRequest := none
    onHooks := none, destroyOutcome := .ok () }

/-- A `tool.call` payload naming the unregistered tool `get_rocket`. -/
def rocketParams : Json :=
  Json.obj [("sessionId", .str "st"), ("toolCallId", .str "c1"),
            ("toolName", .str "get_rocket"),
            ("arguments", Json.obj [("city", .str "Tokyo")])]

/-- A `tool.call` payload for the registered tool `get_weather` on `sf`. -/
def weatherCallParams : Json :=
  Json.obj [("sessionId", .str "sf"), ("toolCallId", .str "c2"),
            ("toolName", .str "get_weather"),
            ("arguments", Json.obj [("city", .str "Tokyo")])]

/-- A permission callback that raises a `std::exception`. -/
def permFailCallback : Json → String → Except Exc PermissionRequestResult :=
  fun _ _ => .error (.stdExc "ui unavailable")

/-- A session whose permission callback raises. -/
def permFailSession : CopilotSession :=
  { sessionId := "sp", workspacePath := "/w", tools := []
    onPermissionRequest := some permFailCallback
    onUserInputRequest := none, onHooks := none, destroyOutcome := .ok () }

/-- A well-formed `permission.request` payload for session `sp`. -/
def permParams : Json :=
  Json.obj [("sessionId", .str "sp"),
            ("permissionRequest", Json.obj [("kind", .str "shell")])]

/-- A user-input callback that raises a `std::exception`. -/
def inputStdFailCallback : UserInputRequest → Except Exc Json :=
  fun _ => .error (.stdExc "input ui crashed")

/-- A user-input callback that raises a non-`std::exception` value. -/
def inputOtherFailCallback : UserInputRequest → Except Exc Json :=
  fun _ => .error .otherExc

/-- A session whose user-input callback raises a `std::exception`. -/
def inputStdFailSession : CopilotSession :=
  { sessionId := "si", workspacePath := "/w", tools := []
    onPermissionRequest := none
    onUserInputRequest := some inputStdFailCallback
    onHooks := none, destroyOutcome := .ok () }

/-- A session whose user-input callback raises a non-`std::exception` value. -/
def inputOtherFailSession : CopilotSession :=
  { sessionId := "su", workspacePath := "/w", tools := []
    onPermissionRequest := none
    onUserInputRequest := some inputOtherFailCallback
    onHooks := none, destroyOutcome := .ok () }

/-- A well-formed `userInput.request` payload for session `si`. -/
def userInputParams : Json :=
  Json.obj [("sessionId", .str "si"), ("question", .str "Proceed?")]

/-- A well-formed `userInput.request` payload for session `su`. -/
def userInputParams2 : Json :=
  Json.obj [("sessionId", .str "su"), ("question", .str "Proceed?")]

/-- A lifecycle subscriber that raises. -/
def lcBoomCallback : SessionLifecycleEvent → Except Exc Unit :=
  fun _ => .error (.stdExc "subscriber one failed")

/-- A lifecycle subscriber that succeeds. -/
def lcOkCallback : SessionLifecycleEvent → Except Exc Unit :=
  fun _ => .ok ()

/-- An unfiltered subscriber (id 1) whose callback raises. -/
def lcEntry1 : LifecycleEntry := ⟨1, "", lcBoomCallback⟩

/-- An unfiltered subscriber (id 2) whose callback succeeds. -/
def lcEntry2 : LifecycleEntry := ⟨2, "", lcOkCallback⟩

/-- A subscriber list where the first subscriber raises. -/
def lcHandlers : List LifecycleEntry := [lcEntry1, lcEntry2]

/-- A well-formed `session.lifecycle` payload. -/
def lcParams : Json :=
  Json.obj [("type", .str "session.created"), ("sessionId", .str "sx")]

/-- A session that destroys cleanly. -/
def okDestroySession : CopilotSession :=
  { sessionId := "s1", workspacePath := "/w", tools := []
    onPermissionRequest := none, onUserInputRequest := none
    onHooks := none, destroyOutcome := .ok () }

/-- A session whose destroy raises a `std::exception`. -/
def stdFailDestroySession : CopilotSession :=
  { sessionId := "s2", workspacePath := "/w", tools := []
    onPermissionRequest := none, onUserInputRequest := none
    onHooks := none, destroyOutcome := .error (.stdExc "backend rejected delete") }

/-- A session whose destroy raises a non-`std::exception` value. -/
def nonStdFailDestroySession : CopilotSession :=
  { sessionId := "sb", workspacePath := "/w", tools := []
    onPermissionRequest := none, onUserInputRequest := none
    onHooks := none, destroyOutcome := .error .otherExc }

/-- A connected client tracking two sessions, one of which fails to destroy
with a `std::exception`. -/
def cTwoSessions : ClientState :=
  { state := .Connected, isExternalServer := false
    sessions := [("s1", okDestroySession), ("s2", stdFailDestroySession)]
    rpcClient := true, modelsCache := none
    processPid := 12, stdinWriteFd := 5, stdoutReadFd := 6 }

/-- A connected client whose only session destroys with a
non-`std::exception` throw. -/
def cNonStdFail : ClientState :=
  { state := .Connected, isExternalServer := false
    sessions := [("sb", nonStdFailDestroySession)]
    rpcClient := true, modelsCache := none
    processPid := 12, stdinWriteFd := 5, stdoutReadFd := 6 }

/-- A client attached to an externally supplied endpoint. -/
def cExternal : ClientState :=
  { state := .Connected, isExternalServer := true
    sessions := [], rpcClient := true, modelsCache := none
    processPid := 77, stdinWriteFd := 3, stdoutReadFd := 4 }

/-- A disconnected client about to start a spawned server. -/
def cStart : ClientState :=
  { state := .Disconnected, isExternalServer := false
    sessions := [], rpcClient := false, modelsCache := none
    processPid := -1, stdinWriteFd := -1, stdoutReadFd := -1 }

/-- The already-connected variant of `cStart`. -/
def cConnected : ClientState :=
  { cStart with state := .Connected }

/-- A start environment whose handshake reports protocol version 3. -/
def envGood : StartEnv :=
  { spawnOutcome := .ok 42, connectOutcome := .ok ()
    pingOutcome := .ok ⟨"pong", some 3⟩ }

/-- A start environment whose handshake reports protocol version 4. -/
def envBadVersion : StartEnv :=
  { spawnOutcome := .ok 42, connectOutcome := .ok ()
    pingOutcome := .ok ⟨"pong", some 4⟩ }

/-- A connected client with an empty models cache. -/
def cModels : ClientState :=
  { state := .Connected, isExternalServer := false
    sessions := [], rpcClient := true, modelsCache := none
    processPid := 9, stdinWriteFd := 0, stdoutReadFd := 1 }

/-- `cModels` after a first successful `listModels`. -/
def cModelsCached : ClientState :=
  { cModels with modelsCache := some [Json.str "gpt-5"] }

/-- The `models.list` response used by the cache witness. -/
def modelsResponse : Except Exc Json :=
  .ok (Json.obj [("models", Json.arr [Json.str "gpt-5"])])

/-!  Helper lemmas. -/

/-- A boolean prefix survives extending the list on the right. -/
theorem isPrefixOf_append_right (p s t : List Char) (h : p.isPrefixOf s = true) :
    p.isPrefixOf (s ++ t) = true := by
  rw [List.isPrefixOf_iff_prefix] at h ⊢
  exact h.trans (List.prefix_append s t)

/-- A string of the shape `a ++ n ++ b` contains `n`. -/
theorem strContains_mid (a n b : String) : strContains (a ++ n ++ b) n = true := by
  unfold strContains
  rw [List.any_eq_true]
  refine ⟨n.data ++ b.data, ?_, ?_⟩
  · rw [List.mem_tails, String.data_append, String.data_append]
    exact ⟨a.data, (List.append_assoc a.data n.data b.data).symm⟩
  · rw [List.isPrefixOf_iff_prefix]
    exact List.prefix_append n.data b.data

/-!  Claim C4. -/

/-- Claim C4: a `tool.call` with well-formed identifiers, a tracked session
and an unregistered tool name answers with a structured failure result (no
protocol-level error) whose error text contains the tool name. -/
theorem unsupported_tool_structured_failure (sessions : Sessions) (params : Json)
    (sid toolCallId toolName : String) (session : CopilotSession)
    (hsid : params.valueStr "sessionId" "" = sid)
    (hcall : params.valueStr "toolCallId" "" = toolCallId)
    (hname : params.valueStr "toolName" "" = toolName)
    (hs : sid ≠ "") (hc : toolCallId ≠ "") (hn : toolName ≠ "")
    (hfind : findSession sessions sid = some session)
    (hno : session.getToolHandler toolName = none) :
    handleToolCall sessions params =
      .ok (Json.obj [("result", (buildUnsupportedToolResult toolName).toJson)], none) ∧
    (buildUnsupportedToolResult toolName).resultType = "failure" ∧
    strContains ((buildUnsupportedToolResult toolName).error.getD "") toolName = true := by
  refine ⟨?_, rfl, ?_⟩
  · simp only [handleToolCall, hsid, hcall, hname]
    rw [if_neg (by simp [hs, hc, hn])]
    simp only [hfind, hno]
  · show strContains ("tool \x27" ++ toolName ++ "\x27 not supported") toolName = true
    exact strContains_mid "tool \x27" toolName "\x27 not supported"

/-- Witness for C4 at the spec's scenario: calling unregistered `get_rocket`
on a session that only registers `get_weather`. -/
theorem unsupported_tool_structured_failure_witness :
    handleToolCall [("st", toolSession)] rocketParams =
      .ok (Json.obj [("result", (buildUnsupportedToolResult "get_rocket").toJson)], none) ∧
    (buildUnsupportedToolResult "get_rocket").resultType = "failure" ∧
    strContains ((buildUnsupportedToolResult "get_rocket").error.getD "") "get_rocket" = true :=
  unsupported_tool_structured_failure [("st", toolSession)] rocketParams
    "st" "c1" "get_rocket" toolSession rfl rfl rfl
    (by decide) (by decide) (by decide) rfl rfl

/-!  Claim C5. -/

/-- Claim C5: a `tool.call` whose registered handler raises answers with a
structured result of type "failure" carrying the error detail, never a
protocol-level error. -/
theorem tool_handler_failure_wrapped (sessions : Sessions) (params : Json)
    (sid toolCallId toolName : String) (session : CopilotSession)
    (handler : ToolHandler) (e : Exc)
    (hsid : params.valueStr "sessionId" "" = sid)
    (hcall : params.valueStr "toolCallId" "" = toolCallId)
    (hname : params.valueStr "toolName" "" = toolName)
    (hs : sid ≠ "") (hc : toolCallId ≠ "") (hn : toolName ≠ "")
    (hfind : findSession sessions sid = some session)
    (hhand : session.getToolHandler toolName = some handler)
    (hfail : handler (params.getD "arguments" (Json.obj []))
      ⟨sid, toolCallId, toolName, params.getD "arguments" (Json.obj [])⟩ = .error e) :
    handleToolCall sessions params =
      .ok (Json.obj [("result", (buildFailedToolResult (excErrorDetail e)).toJson)], none) ∧
    (buildFailedToolResult (excErrorDetail e)).resultType = "failure" ∧
    (buildFailedToolResult (excErrorDetail e)).error = some (excErrorDetail e) := by
  refine ⟨?_, rfl, rfl⟩
  simp only [handleToolCall, hsid, hcall, hname]
  rw [if_neg (by simp [hs, hc, hn])]
  simp only [hfind, hhand, executeToolCall]
  rw [hfail]
  cases e <;> rfl

/-- Witness for C5: the registered `get_weather` handler raises a
`std::exception`; the answer is the wrapped failure result. -/
theorem tool_handler_failure_wrapped_witness :
    handleToolCall [("sf", failToolSession)] weatherCallParams =
      .ok (Json.obj [("result",
        (buildFailedToolResult (excErrorDetail (.stdExc "weather backend offline"))).toJson)], none) ∧
    (buildFailedToolResult (excErrorDetail (.stdExc "weather backend offline"))).resultType
      = "failure" ∧
    (buildFailedToolResult (excErrorDetail (.stdExc "weather backend offline"))).error
      = some (excErrorDetail (.stdExc "weather backend offline")) :=
  tool_handler_failure_wrapped [("sf", failToolSession)] weatherCallParams
    "sf" "c2" "get_weather" failToolSession weatherFailHandler (.stdExc "weather backend offline")
    rfl rfl rfl (by decide) (by decide) (by decide) rfl rfl rfl

/-!  Claim C6. -/

/-- Claim C6: a `permission.request` for a tracked session whose permission
callback is missing or raises answers with a successful result carrying the
default denial outcome, never a protocol error or an escaped exception. -/
theorem permission_failure_default_denied (sessions : Sessions) (params : Json)
    (sid : String) (session : CopilotSession)
    (hsid : params.valueStr "sessionId" "" = sid) (hs : sid ≠ "")
    (hhas : params.containsKey "permissionRequest" = true)
    (hfind : findSession sessions sid = some session)
    (hfail : session.onPermissionRequest = none ∨
      ∃ f ex, session.onPermissionRequest = some f ∧
        f (params.getD "permissionRequest" Json.null) session.sessionId = .error ex) :
    handlePermissionRequest sessions params =
      .ok (Json.obj [("result", defaultDeniedResult.toJson)], none) := by
  simp only [handlePermissionRequest, hsid]
  rw [if_neg (by simp [hs, hhas])]
  simp only [hfind, CopilotSession.handlePermissionRequest]
  rcases hfail with hnone | ⟨f, ex, hf, hex⟩
  · simp only [hnone]
  · simp only [hf, hex]

/-- Witness for C6: an existing permission callback that raises; the
response is the default denial result. -/
theorem permission_failure_default_denied_witness :
    handlePermissionRequest [("sp", permFailSession)] permParams =
      .ok (Json.obj [("result", defaultDeniedResult.toJson)], none) :=
  permission_failure_default_denied [("sp", permFailSession)] permParams
    "sp" permFailSession rfl (by decide) rfl rfl
    (Or.inr ⟨permFailCallback, .stdExc "ui unavailable", rfl, rfl⟩)

/-!  Claim C7 (corrected). -/

/-- Counterexample to C7 as stated: the input callback of a tracked session
raises a value not derived from `std::exception`; `handleUserInputRequest`
does not answer with a protocol-level internal error — the throw escapes
the dispatch handler. -/
theorem userInput_nonstd_failure_escapes :
    handleUserInputRequest [("su", inputOtherFailSession)] userInputParams2 =
      .error .otherExc := rfl

/-- Claim C7 as amended: a `std::exception`-derived failure raised by the
session's input callback is surfaced as a protocol-level internal error
(code -32603 carrying the exception message); a failure not derived from
`std::exception` instead propagates out of the dispatch handler. -/
theorem userInput_std_failure_internal_error (sessions : Sessions) (params : Json)
    (sid question w : String) (session : CopilotSession)
    (f : UserInputRequest → Except Exc Json)
    (hsid : params.valueStr "sessionId" "" = sid) (hs : sid ≠ "")
    (hq : params.valueStr "question" "" = question) (hqn : question ≠ "")
    (hfind : findSession sessions sid = some session)
    (hcb : session.onUserInputRequest = some f) :
    (f (decodeUserInputRequest params) = .error (.stdExc w) →
      handleUserInputRequest sessions params = .ok (.null, some ⟨-32603, w⟩)) ∧
    (f (decodeUserInputRequest params) = .error .otherExc →
      handleUserInputRequest sessions params = .error .otherExc) := by
  constructor <;> intro hfail <;>
  · simp only [handleUserInputRequest, hsid, hq]
    rw [if_neg (by simp [hs, hqn])]
    simp only [hfind, CopilotSession.handleUserInputRequest, hcb, hfail]

/-- Witness for the amended C7: a `std::exception`-raising input callback
yields the protocol-level internal error `-32603` with its message. -/
theorem userInput_std_failure_internal_error_witness :
    handleUserInputRequest [("si", inputStdFailSession)] userInputParams =
      .ok (.null, some ⟨-32603, "input ui crashed"⟩) :=
  (userInput_std_failure_internal_error [("si", inputStdFailSession)] userInputParams
    "si" "Proceed?" "input ui crashed" inputStdFailSession inputStdFailCallback
    rfl (by decide) rfl (by decide) rfl rfl).1 rfl

/-!  Claim C1 (corrected). -/

/-- Every branch of `handleToolCall` returns, so nothing a tool handler
throws escapes this dispatch handler. -/
theorem handleToolCall_isOk (sessions : Sessions) (params : Json) :
    (handleToolCall sessions params).isOk = true := by
  simp only [handleToolCall]
  repeat' split
  all_goals rfl

/-- Every branch of `handlePermissionRequest` returns, so nothing the
permission callback throws escapes this dispatch handler. -/
theorem handlePermissionRequest_isOk (sessions : Sessions) (params : Json) :
    (handlePermissionRequest sessions params).isOk = true := by
  simp only [handlePermissionRequest]
  repeat' split
  all_goals rfl

/-- `handleUserInputRequest` never lets a `std::exception`-derived throw
escape (those are converted to `-32603`); only other throws escape. -/
theorem handleUserInputRequest_no_std_escape (sessions : Sessions) (params : Json) :
    stdExcEscape (handleUserInputRequest sessions params) = false := by
  simp only [handleUserInputRequest]
  repeat' split
  all_goals rfl

/-- Counterexample to C1 as stated: a hooks callback that raises a plain
`std::exception` propagates out of `handleHooksInvoke` — the dispatch
handler neither catches it nor converts it into an error response. -/
theorem hooks_exception_escapes_dispatch :
    handleHooksInvoke [("sh", hooksBoomSession)] hooksInvokeParams =
      .error (.stdExc "hook handler failed") := rfl

/-- Claim C1 as amended: `handleToolCall` and `handlePermissionRequest`
contain every handler throw; `handleUserInputRequest` converts
`std::exception` throws into error responses and propagates other throws;
`handleHooksInvoke` propagates every throw of the hooks callback out of the
dispatch handler. -/
theorem dispatch_boundary_amended (sessions : Sessions) (params : Json)
    (sid hookType : String) (session : CopilotSession)
    (f : String → Json → Except Exc Json) (e : Exc)
    (hsid : params.valueStr "sessionId" "" = sid) (hs : sid ≠ "")
    (hht : params.valueStr "hookType" "" = hookType) (hh : hookType ≠ "")
    (hfind : findSession sessions sid = some session)
    (hcb : session.onHooks = some f)
    (hfail : f hookType (params.getD "input" (Json.obj [])) = .error e) :
    (handleToolCall sessions params).isOk = true ∧
    (handlePermissionRequest sessions params).isOk = true ∧
    stdExcEscape (handleUserInputRequest sessions params) = false ∧
    handleHooksInvoke sessions params = .error e := by
  refine ⟨handleToolCall_isOk sessions params,
    handlePermissionRequest_isOk sessions params,
    handleUserInputRequest_no_std_escape sessions params, ?_⟩
  simp only [handleHooksInvoke, hsid, hht]
  rw [if_neg (by simp [hs, hh])]
  simp only [hfind, CopilotSession.handleHooksInvoke, hcb, hht, hfail]

/-- Witness for the amended C1 on a session whose hooks callback raises a
non-`std::exception` value. -/
theorem dispatch_boundary_amended_witness :
    (handleToolCall [("sh2", hooksOtherSession)] hooksInvokeParams2).isOk = true ∧
    (handlePermissionRequest [("sh2", hooksOtherSession)] hooksInvokeParams2).isOk = true ∧
    stdExcEscape (handleUserInputRequest [("sh2", hooksOtherSession)] hooksInvokeParams2) = false ∧
    handleHooksInvoke [("sh2", hooksOtherSession)] hooksInvokeParams2 = .error .otherExc :=
  dispatch_boundary_amended [("sh2", hooksOtherSession)] hooksInvokeParams2
    "sh2" "preToolUse" hooksOtherSession hookOtherThrowCallback .otherExc
    rfl (by decide) rfl (by decide) rfl rfl rfl

/-!  Claim C8. -/

/-- Claim C8: a well-formed `session.lifecycle` event is delivered to every
registered subscriber whose filter is empty or equals the event's type; the
conclusion holds for each matching entry irrespective of what any other
subscriber's callback does (raising callbacks are recorded and swallowed,
not allowed to cut the iteration short). -/
theorem lifecycle_delivery_all_matching (handlers : List LifecycleEntry)
    (params : Json) (entry : LifecycleEntry)
    (hty : params.containsKey "type" = true)
    (hsid : params.containsKey "sessionId" = true)
    (hmem : entry ∈ handlers)
    (hmatch : entry.eventType = "" ∨ entry.eventType = (decodeLifecycleEvent params).type) :
    (entry.id, entry.fn (decodeLifecycleEvent params)) ∈
      handleSessionLifecycle handlers params := by
  unfold handleSessionLifecycle
  rw [if_pos (by rw [hty, hsid]; rfl)]
  refine List.mem_map.mpr ⟨entry, List.mem_filter.mpr ⟨hmem, ?_⟩, rfl⟩
  rcases hmatch with h | h <;> simp [h]

/-- Witness for C8: two unfiltered subscribers, the first of which raises;
both are invoked, so the raising first subscriber did not prevent delivery
to the second. -/
theorem lifecycle_delivery_all_matching_witness :
    (1, Except.error (Exc.stdExc "subscriber one failed")) ∈
      handleSessionLifecycle lcHandlers lcParams ∧
    (2, Except.ok ()) ∈ handleSessionLifecycle lcHandlers lcParams :=
  ⟨lifecycle_delivery_all_matching lcHandlers lcParams lcEntry1 rfl rfl
      (List.mem_cons_self lcEntry1 [lcEntry2]) (Or.inl rfl),
   lifecycle_delivery_all_matching lcHandlers lcParams lcEntry2 rfl rfl
      (List.mem_cons_of_mem lcEntry1 (List.mem_cons_self lcEntry2 []))
      (Or.inl rfl)⟩

/-!  Claim C9. -/

/-- A list whose members are all the RPC-stop action contains no
process-termination action. -/
theorem all_rpcStop_no_termSignal (l : List ProcAction)
    (h : l.all isRpcStop = true) : l.any isTermSignal = false := by
  induction l with
  | nil => rfl
  | cons a t ih =>
    rw [List.all_cons, Bool.and_eq_true] at h
    rw [List.any_cons, ih h.2, Bool.or_false]
    cases a <;> first | rfl | exact absurd h.1 (by simp [isRpcStop])

/-- The actions of `stop` decompose as the optional RPC shutdown followed
by the graceful kill block. -/
theorem stopActionsList_eq (c : ClientState) :
    stopActionsList c = [] ∨
    stopActionsList c =
      (if c.rpcClient then [ProcAction.rpcStop] else []) ++ gracefulKillActions c := by
  unfold stopActionsList CopilotClient.stop
  cases destroySessions c.sessions
  · exact Or.inl rfl
  · exact Or.inr rfl

/-- Claim C9: a client attached to an externally supplied endpoint performs
no process-termination action in `stop` or `forceStop` (at most the RPC
shutdown); conversely a termination signal can only occur when the client
spawned the subprocess itself. -/
theorem no_kill_for_external_endpoint (c : ClientState) :
    (c.isExternalServer = true →
      (stopActionsList c).all isRpcStop = true ∧
      ((CopilotClient.forceStop c).2.all isRpcStop) = true) ∧
    (((stopActionsList c).any isTermSignal = true ∨
      ((CopilotClient.forceStop c).2.any isTermSignal = true)) →
      c.isExternalServer = false) := by
  have hforce : (CopilotClient.forceStop c).2 =
      (if c.rpcClient then [ProcAction.rpcStop] else []) ++ forcedKillActions c := rfl
  constructor
  · intro hext
    constructor
    · rcases stopActionsList_eq c with h | h
      · rw [h]; rfl
      · rw [h, gracefulKillActions, if_pos hext, List.append_nil]
        cases c.rpcClient <;> rfl
    · rw [hforce, forcedKillActions, if_pos hext, List.append_nil]
      cases c.rpcClient <;> rfl
  · intro hterm
    cases hext : c.isExternalServer
    · rfl
    · exfalso
      have hall := (by
        rcases stopActionsList_eq c with h | h
        · rw [h]; rfl
        · rw [h, gracefulKillActions, if_pos hext, List.append_nil]
          cases c.rpcClient <;> rfl : (stopActionsList c).all isRpcStop = true)
      have hall2 := (by
        rw [hforce, forcedKillActions, if_pos hext, List.append_nil]
        cases c.rpcClient <;> rfl : ((CopilotClient.forceStop c).2.all isRpcStop = true))
      rcases hterm with h | h
      · rw [all_rpcStop_no_termSignal _ hall] at h; exact Bool.false_ne_true h
      · rw [all_rpcStop_no_termSignal _ hall2] at h; exact Bool.false_ne_true h

/-- Witness for C9: an external-endpoint client (with a recorded pid and
open descriptors, which must still not be touched) only ever performs the
RPC shutdown. -/
theorem no_kill_for_external_endpoint_witness :
    cExternal.isExternalServer = true ∧
    (stopActionsList cExternal).all isRpcStop = true ∧
    ((CopilotClient.forceStop cExternal).2.all isRpcStop) = true :=
  ⟨rfl, ((no_kill_for_external_endpoint cExternal).1 rfl).1,
    ((no_kill_for_external_endpoint cExternal).1 rfl).2⟩

/-!  Claim C2. -/

/-- The missing-version handshake message starts with the mismatch text. -/
theorem startsWith_mismatch_none (expected : Nat) :
    strStartsWith ("SDK protocol version mismatch: SDK expects version "
      ++ toString expected
      ++ ", but server does not report a protocol version. Please update your server to ensure compatibility.")
      "SDK protocol version mismatch" = true := by
  unfold strStartsWith
  rw [String.data_append, String.data_append]
  apply isPrefixOf_append_right
  apply isPrefixOf_append_right
  decide

/-- The wrong-version handshake message starts with the mismatch text. -/
theorem startsWith_mismatch_reported (expected v : Nat) :
    strStartsWith ("SDK protocol version mismatch: SDK expects version "
      ++ toString expected
      ++ ", but server reports version " ++ toString v
      ++ ". Please update your SDK or server to ensure compatibility.")
      "SDK protocol version mismatch" = true := by
  unfold strStartsWith
  rw [String.data_append, String.data_append, String.data_append,
    String.data_append]
  apply isPrefixOf_append_right
  apply isPrefixOf_append_right
  apply isPrefixOf_append_right
  apply isPrefixOf_append_right
  decide

/-- A handshake response carrying the expected version passes
`verifyProtocolVersion`. -/
theorem verify_ok (expected : Nat) (env : StartEnv) (resp : PingResponse)
    (hping : env.pingOutcome = .ok resp)
    (hver : resp.protocolVersion = some expected) :
    verifyProtocolVersion expected env.pingOutcome = .ok () := by
  simp [verifyProtocolVersion, hping, hver]

/-- A handshake response with a missing or different version makes
`verifyProtocolVersion` throw a mismatch-message `std::runtime_error`. -/
theorem verify_mismatch (expected : Nat) (env : StartEnv) (resp : PingResponse)
    (hping : env.pingOutcome = .ok resp)
    (hbad : resp.protocolVersion = none ∨ resp.protocolVersion ≠ some expected) :
    ∃ w, verifyProtocolVersion expected env.pingOutcome = .error (.stdExc w) ∧
      strStartsWith w "SDK protocol version mismatch" = true := by
  cases hv : resp.protocolVersion with
  | none =>
    refine ⟨_, ?_, startsWith_mismatch_none expected⟩
    simp [verifyProtocolVersion, hping, hv]
  | some v =>
    have hne : v ≠ expected := by
      rintro rfl
      rcases hbad with hb | hb
      · rw [hv] at hb; cases hb
      · exact hb hv
    refine ⟨_, ?_, startsWith_mismatch_reported expected v⟩
    simp [verifyProtocolVersion, hping, hv, hne]

/-- For a non-connected client whose spawn and connect steps succeed, the
outcome of `start` is decided by the handshake verification: final state
and escaped error follow `verifyProtocolVersion`. -/
theorem start_outcome (expected : Nat) (c : ClientState) (env : StartEnv)
    (hncon : c.state ≠ .Connected) (hconn : env.connectOutcome = .ok ())
    (hspawn : c.isExternalServer = true ∨ ∃ pid, env.spawnOutcome = .ok pid) :
    ((CopilotClient.start expected c env).1.state =
      match verifyProtocolVersion expected env.pingOutcome with
      | .ok _ => ConnectionState.Connected
      | .error _ => ConnectionState.Error) ∧
    ((CopilotClient.start expected c env).2 =
      match verifyProtocolVersion expected env.pingOutcome with
      | .ok _ => none
      | .error e => some e) := by
  unfold CopilotClient.start
  rw [if_neg hncon, hconn]
  rcases hspawn with hx | ⟨pid, hp⟩
  · cases hv : verifyProtocolVersion expected env.pingOutcome <;>
      simp [hx, hv]
  · cases hv : verifyProtocolVersion expected env.pingOutcome <;>
      by_cases hext : c.isExternalServer = true <;>
        simp [hp, hext, hv, Except.map]

/-- Claim C2: `start()` is a no-op when already Connected; otherwise, with
spawn and transport succeeding, a handshake response whose protocol version
is missing or differs from the compiled-in expected version fails `start`
with a protocol-version-mismatch error and final state Error, while the
matching version yields final state Connected with no error. -/
theorem start_state_machine (expected : Nat) (c : ClientState) (env : StartEnv)
    (resp : PingResponse)
    (hping : env.pingOutcome = .ok resp)
    (hconn : env.connectOutcome = .ok ())
    (hspawn : c.isExternalServer = true ∨ ∃ pid, env.spawnOutcome = .ok pid) :
    (c.state = .Connected → CopilotClient.start expected c env = (c, none)) ∧
    (c.state ≠ .Connected → resp.protocolVersion = some expected →
      (CopilotClient.start expected c env).1.state = .Connected ∧
      (CopilotClient.start expected c env).2 = none) ∧
    (c.state ≠ .Connected →
      (resp.protocolVersion = none ∨ resp.protocolVersion ≠ some expected) →
      (CopilotClient.start expected c env).1.state = .Error ∧
      errIsVersionMismatch (CopilotClient.start expected c env).2 = true) := by
  refine ⟨?_, ?_, ?_⟩
  · intro hcon
    simp [CopilotClient.start, hcon]
  · intro hncon hver
    obtain ⟨h1, h2⟩ := start_outcome expected c env hncon hconn hspawn
    rw [verify_ok expected env resp hping hver] at h1 h2
    exact ⟨h1, h2⟩
  · intro hncon hbad
    obtain ⟨w, hw, hsw⟩ := verify_mismatch expected env resp hping hbad
    obtain ⟨h1, h2⟩ := start_outcome expected c env hncon hconn hspawn
    rw [hw] at h1 h2
    refine ⟨h1, ?_⟩
    rw [h2]
    simpa [errIsVersionMismatch] using hsw

/-- Witness for C2 at protocol version 3: success on a matching handshake,
Error state plus mismatch error on version 4, no-op when already
Connected. -/
theorem start_state_machine_witness :
    ((CopilotClient.start 3 cStart envGood).1.state = .Connected ∧
      (CopilotClient.start 3 cStart envGood).2 = none) ∧
    ((CopilotClient.start 3 cStart envBadVersion).1.state = .Error ∧
      errIsVersionMismatch (CopilotClient.start 3 cStart envBadVersion).2 = true) ∧
    CopilotClient.start 3 cConnected envGood = (cConnected, none) :=
  ⟨(start_state_machine 3 cStart envGood ⟨"pong", some 3⟩ rfl rfl
      (Or.inr ⟨42, rfl⟩)).2.1 (by decide) rfl,
   (start_state_machine 3 cStart envBadVersion ⟨"pong", some 4⟩ rfl rfl
      (Or.inr ⟨42, rfl⟩)).2.2 (by decide) (Or.inr (by decide)),
   (start_state_machine 3 cConnected envGood ⟨"pong", some 3⟩ rfl rfl
      (Or.inr ⟨42, rfl⟩)).1 rfl⟩

/-!  Claim C3 (corrected). -/

/-- When no destroy outcome is a non-`std::exception` throw, the destroy
loop completes and collects exactly one message per failing session. -/
theorem destroySessions_eq_errors (l : Sessions) (h : allDestroySafe l = true) :
    destroySessions l = .ok (destroyErrors l) := by
  induction l with
  | nil => rfl
  | cons p rest ih =>
    rw [allDestroySafe, List.all_cons, Bool.and_eq_true] at h
    have ih2 := ih (by rw [allDestroySafe]; exact h.2)
    obtain ⟨a, s⟩ := p
    have h1 := h.1
    unfold destroySessions destroyErrors
    simp only [CopilotSession.destroy]
    cases hd : s.destroyOutcome with
    | ok u => simpa using ih2
    | error e =>
      cases e with
      | stdExc w => simp [ih2]
      | otherExc => simp [hd] at h1

/-- Counterexample to C3 as stated: a session whose destroy raises a value
not derived from `std::exception` makes `stop()` itself throw instead of
collecting the failure, so no error list is returned and the client is not
transitioned to Disconnected. -/
theorem stop_throws_on_nonstd_destroy_failure :
    CopilotClient.stop cNonStdFail = .error .otherExc := rfl

/-- Claim C3 as amended: whenever every session-destroy failure is derived
from `std::exception` (the only kind `stop`'s catch clause handles), `stop`
returns — never throws — with exactly one collected message per failing
session, final state Disconnected and an empty tracked-session table; a
non-`std::exception` destroy failure instead propagates out of `stop`. -/
theorem stop_collects_std_failures (c : ClientState)
    (h : allDestroySafe c.sessions = true) :
    stopErrorsOpt c = some (destroyErrors c.sessions) ∧
    Option.map ClientState.state (stoppedStateOpt c) = some ConnectionState.Disconnected ∧
    Option.map ClientState.sessions (stoppedStateOpt c) = some [] := by
  have hd := destroySessions_eq_errors c.sessions h
  refine ⟨?_, ?_, ?_⟩ <;>
    · simp [stopErrorsOpt, stoppedStateOpt, CopilotClient.stop, hd, afterKill]
      try (split <;> simp)

/-- Witness for the amended C3 at the spec's scenario: two tracked
sessions, one failing to destroy with a `std::exception`; `stop` returns a
one-element error list, state Disconnected, empty session table. -/
theorem stop_collects_std_failures_witness :
    allDestroySafe cTwoSessions.sessions = true ∧
    stopErrorsOpt cTwoSessions = some (destroyErrors cTwoSessions.sessions) ∧
    Option.map ClientState.state (stoppedStateOpt cTwoSessions) =
      some ConnectionState.Disconnected ∧
    Option.map ClientState.sessions (stoppedStateOpt cTwoSessions) = some [] ∧
    destroyErrors cTwoSessions.sessions =
      ["Failed to destroy session s2: backend rejected delete"] := by
  have H := stop_collects_std_failures cTwoSessions rfl
  exact ⟨rfl, H.1, H.2.1, H.2.2, by decide⟩

/-!  Claim C10. -/

/-- A successful `listModels` leaves a connected client whose cache holds
exactly the returned list. -/
theorem listModels_ok_state (c c2 : ClientState) (r : Except Exc Json)
    (models : List Json) (calls : List RpcCall)
    (h : CopilotClient.listModels c r = .ok (models, c2, calls)) :
    c2.rpcClient = true ∧ c2.modelsCache = some models := by
  unfold CopilotClient.listModels at h
  by_cases hrpc : c.rpcClient = true
  · rw [if_neg (by simp [hrpc])] at h
    cases hc : c.modelsCache with
    | some ms =>
      rw [hc] at h
      obtain ⟨hm, hcs, -⟩ := by simpa using h
      subst hcs
      exact ⟨hrpc, by rw [hc, hm]⟩
    | none =>
      rw [hc] at h
      cases hr : r with
      | error e => rw [hr] at h; cases h
      | ok result =>
        rw [hr] at h
        obtain ⟨hm, hcs, -⟩ := by simpa using h
        subst hcs
        exact ⟨hrpc, by simp [hm]⟩
  · rw [if_pos (by simp [hrpc])] at h
    cases h

/-- After `stop` succeeds the models cache is empty. -/
theorem stop_clears_cache (c : ClientState) :
    Option.all cacheClearedB (stoppedStateOpt c) = true := by
  unfold stoppedStateOpt CopilotClient.stop
  cases destroySessions c.sessions
  · rfl
  · simp [cacheClearedB, afterKill]
    split <;> simp

/-- After `forceStop` the models cache is empty. -/
theorem forceStop_clears_cache (c : ClientState) :
    cacheClearedB (CopilotClient.forceStop c).1 = true := by
  simp [CopilotClient.forceStop, cacheClearedB, afterKill]
  split <;> simp

/-- Claim C10: after one successful `listModels`, any subsequent
`listModels` on the resulting client returns the same list with the state
unchanged and no `models.list` request issued — whatever the transport
would answer — and `stop` or `forceStop` clear the cache. -/
theorem listModels_cached_until_stop (c c2 : ClientState)
    (r r2 : Except Exc Json) (models : List Json) (calls : List RpcCall)
    (h : CopilotClient.listModels c r = .ok (models, c2, calls)) :
    CopilotClient.listModels c2 r2 = .ok (models, c2, []) ∧
    Option.all cacheClearedB (stoppedStateOpt c2) = true ∧
    cacheClearedB (CopilotClient.forceStop c2).1 = true := by
  obtain ⟨hrpc, hcache⟩ := listModels_ok_state c c2 r models calls h
  exact ⟨by simp [CopilotClient.listModels, hrpc, hcache],
    stop_clears_cache c2, forceStop_clears_cache c2⟩

/-- Witness for C10: a first `listModels` populating the cache from a
`models.list` response; the second call answers from the cache even though
the transport would now fail, and stopping clears the cache. -/
theorem listModels_cached_until_stop_witness :
    CopilotClient.listModels cModels modelsResponse =
      .ok ([Json.str "gpt-5"], cModelsCached, [RpcCall.request "models.list"]) ∧
    CopilotClient.listModels cModelsCached (.error .otherExc) =
      .ok ([Json.str "gpt-5"], cModelsCached, []) ∧
    Option.all cacheClearedB (stoppedStateOpt cModelsCached) = true ∧
    cacheClearedB (CopilotClient.forceStop cModelsCached).1 = true := by
  have H := listModels_cached_until_stop cModels cModelsCached modelsResponse
    (.error .otherExc) [Json.str "gpt-5"] [RpcCall.request "models.list"] rfl
  exact ⟨rfl, H.1, H.2.1, H.2.2⟩

end Copilot
